import Mathlib

/-!
Shallow embedding of `daily_digest.py`, the single-file pipeline of the
ai-disability-digest repository, together with proofs about its behaviour.

External collaborators are passed in as explicit parameters:
the feed transport is a per-source `Except` result, the text synthesizer is a
function from a prompt to `Except String String`, and the mailer is a function
returning `Except String Unit`.  Publish timestamps are abstracted to `Int`
(the code only compares them with `<` against the cutoff `yesterday`); the
`strftime` rendering of a parsed date is modelled as its decimal rendering,
which never collides with the sentinel string "Recent".
-/

/-- A raw feed entry as exposed by the feed library: `entry.get` returns
`none` when a field is absent, and `pubDate` is `some` exactly when the entry
carries a parsed publish timestamp (`hasattr(entry, 'published_parsed')`). -/
structure RawEntry where
  title : Option String
  link : Option String
  summary : Option String
  pubDate : Option Int
deriving DecidableEq, Repr

/-- The normalized article record built by the Collector
(`daily_digest.py` lines 72-78). -/
structure Article where
  title : String
  link : String
  summary : String
  source : String
  published : String
deriving DecidableEq, Repr

/-- One entry of the source registry together with the outcome of fetching it:
`Except.error` models `feedparser.parse` (or the entry loop) raising, which the
per-source `try`/`except` of `fetch_articles` catches. -/
structure Source where
  name : String
  result : Except String (List RawEntry)

/-- Python's slicing `s[:n]`: the first `n` code points of the string. -/
def strTake (s : String) (n : Nat) : String :=
  ⟨s.data.take n⟩

/-- Python's `str.lower()`, modelled per code point with the library's
character lowercasing. -/
def strLower (s : String) : String :=
  ⟨s.data.map Char.toLower⟩

/-- Scan of Python's substring test: does the needle occur starting at some
position of the haystack? -/
def strContainsAux (needle : List Char) : List Char → Bool
  | [] => needle.isEmpty
  | c :: cs => needle.isPrefixOf (c :: cs) || strContainsAux needle cs

/-- Python's substring test `needle in hay` (the empty needle is contained in
everything, as in Python). -/
def strContains (hay needle : String) : Bool :=
  strContainsAux needle.data hay.data

/-- Fuelled scan for Python's `str.replace`: at each position, if the pattern
matches it is replaced and scanning resumes after the replacement, else one
character is emitted.  Each step consumes at least one character of the input
when the pattern is non-empty, so fuel equal to the input length suffices. -/
def pyReplaceAux (pat repl : List Char) : Nat → List Char → List Char
  | _, [] => []
  | 0, l => l
  | fuel + 1, c :: cs =>
    if pat.isPrefixOf (c :: cs) then
      repl ++ pyReplaceAux pat repl fuel (List.drop pat.length (c :: cs))
    else
      c :: pyReplaceAux pat repl fuel cs

/-- Python's `str.replace(pat, repl)` for the non-empty patterns used by the
script: left-to-right, non-overlapping replacement of every occurrence. -/
def pyReplace (s pat repl : String) : String :=
  if pat.isEmpty then s else ⟨pyReplaceAux pat.data repl.data s.data.length s.data⟩

/-- `True` exactly when the entry survives the recency check of
`fetch_articles` lines 63-70: an entry with a parsed date strictly before the
cutoff is rejected, an entry without a parsed date always survives. -/
def survivesWindow (yesterday : Int) (e : RawEntry) : Bool :=
  match e.pubDate with
  | some d => !decide (d < yesterday)
  | none => true

/-- The body of the entry loop of `fetch_articles` (lines 62-79): `none` when
the entry is skipped by the recency check, otherwise the normalized article
with defaulted fields, the summary truncated to 300 characters, and the
`published` field set to the rendered date or to the sentinel "Recent". -/
def entryToArticle (yesterday : Int) (srcName : String) (e : RawEntry) : Option Article :=
  match e.pubDate with
  | some d =>
    if d < yesterday then none
    else some
      { title := e.title.getD "No Title"
        link := e.link.getD ""
        summary := strTake (e.summary.getD "") 300
        source := srcName
        published := toString d }
  | none => some
      { title := e.title.getD "No Title"
        link := e.link.getD ""
        summary := strTake (e.summary.getD "") 300
        source := srcName
        published := "Recent" }

/-- The articles contributed by one source: a failing source contributes
nothing (its exception is caught, logged and the loop continues), a successful
source contributes its first 10 entries filtered through the entry loop. -/
def processSource (yesterday : Int) (s : Source) : List Article :=
  match s.result with
  | Except.error _ => []
  | Except.ok entries => (entries.take 10).filterMap (entryToArticle yesterday s.name)

/-- `fetch_articles` (lines 49-86): iterate over the source registry in order,
appending each source's articles to the accumulator. -/
def fetch_articles (yesterday : Int) (sources : List Source) : List Article :=
  sources.flatMap (processSource yesterday)

/-- Number of articles in a list carrying a given link. -/
def countLink (arts : List Article) (l : String) : Nat :=
  (arts.filter (fun a => a.link == l)).length

theorem countLink_append (l₁ l₂ : List Article) (L : String) :
    countLink (l₁ ++ l₂) L = countLink l₁ L + countLink l₂ L := by
  simp [countLink, List.filter_append]

theorem countLink_filterMap (y : Int) (n L : String) (entries : List RawEntry) :
    countLink (entries.filterMap (entryToArticle y n)) L =
      (entries.filter (fun e => survivesWindow y e && (e.link.getD "" == L))).length := by
  induction entries with
  | nil => rfl
  | cons e es ih =>
    simp only [List.filterMap_cons, List.filter_cons]
    cases hd : e.pubDate with
    | some d =>
      by_cases hlt : d < y
      · simp [entryToArticle, survivesWindow, hd, hlt, ih]
      · by_cases hL : (e.link.getD "" == L) = true
        · simpa [entryToArticle, survivesWindow, hd, hlt, hL, countLink] using ih
        · simpa [entryToArticle, survivesWindow, hd, hlt, hL, countLink] using ih
    | none =>
      by_cases hL : (e.link.getD "" == L) = true
      · simpa [entryToArticle, survivesWindow, hd, hL, countLink] using ih
      · simpa [entryToArticle, survivesWindow, hd, hL, countLink] using ih

/-- The disability/accessibility keyword set of `filter_relevant_articles`
(lines 91-95). -/
def keywords : List String :=
  ["disability", "disabilities", "accessible", "accessibility",
   "assistive", "inclusive", "inclusion", "impairment",
   "blind", "deaf", "wheelchair", "autism", "cognitive"]

/-- The AI keyword set of `filter_relevant_articles` (line 97). -/
def ai_keywords : List String :=
  ["ai", "artificial intelligence", "machine learning", "deep learning", "neural"]

/-- The haystack the filter matches against: lowercased concatenation of title
and summary with a single separating space (line 101). -/
def articleText (a : Article) : String :=
  strLower (a.title ++ " " ++ a.summary)

/-- `has_ai` of line 104: some AI keyword occurs as a substring of the text. -/
def has_ai (a : Article) : Bool :=
  ai_keywords.any (fun kw => strContains (articleText a) kw)

/-- `has_disability` of line 105: some disability keyword occurs as a
substring of the text. -/
def has_disability (a : Article) : Bool :=
  keywords.any (fun kw => strContains (articleText a) kw)

/-- `filter_relevant_articles` (lines 89-111): keep exactly the articles whose
text matches both keyword sets. -/
def filter_relevant_articles (articles : List Article) : List Article :=
  articles.filter (fun a => has_ai a && has_disability a)

/-- One block of `articles_text` (line 127): the per-article serialization
used in the prompt, with a 1-based index. -/
def articleBlock (i : Nat) (a : Article) : String :=
  "Article " ++ toString (i + 1) ++ ":\nTitle: " ++ a.title ++ "\nLink: " ++ a.link ++
    "\nSummary: " ++ a.summary ++ "\nSource: " ++ a.source

/-- `articles_text` (lines 126-129): the first 15 articles serialized and
joined with blank lines. -/
def articlesText (articles : List Article) : String :=
  String.intercalate "\n\n" ((articles.take 15).enum.map (fun p => articleBlock p.1 p.2))

/-- The prompt f-string of lines 132-165; `dateStr` stands for
`datetime.now().strftime('%B %d, %Y')`.  Note that the statistics line uses
the length of the full article list, not of the truncated one. -/
def buildPrompt (dateStr : String) (articles : List Article) : String :=
  "\nYou are a professional tech news editor specializing in AI and disability topics.\n\nHere are today\x27s collected articles:\n\n" ++
  articlesText articles ++
  "\n\nPlease compile these articles into a professional daily digest with this format:\n\n# 🤖 AI & Disability Daily Digest\n📅 " ++
  dateStr ++
  "\n\n## 🔥 Today\x27s Highlights\n[Select the 1-2 most important articles and write detailed 100-150 word summaries explaining why they matter]\n\n## 📰 Important News (ranked by importance)\n[List other important articles, each including:]\n- **[Title]** ([Original Link](link))\n  - 📝 [50-80 word summary]\n  - 🔑 Keywords: [3-5 relevant keywords]\n\n## 💡 Tech Trends Analysis\n[From today\x27s articles, summarize 2-3 technical trends or observations]\n\n## 📊 Today\x27s Statistics\n- Articles analyzed: " ++
  toString articles.length ++
  "\n- Main areas: [list main application areas]\n- Focus topics: [list trending keywords]\n\n---\n💌 This is an automatically generated digest. Sources: Google News, arXiv, etc.\n\nPlease write in professional but accessible English and ensure all links are correct.\n"

/-- `generate_digest_with_gemini` (lines 114-175).  The text synthesizer
(`model.generate_content` followed by `.text`) is the parameter `gen`; the
`try`/`except` around the call maps an exception to the return value `None`,
and an empty input list returns `None` up front. -/
def generate_digest_with_gemini (dateStr : String)
    (gen : String → Except String String) (articles : List Article) : Option String :=
  if articles.isEmpty then none
  else
    match gen (buildPrompt dateStr articles) with
    | Except.ok digest => some digest
    | Except.error _ => none

/-- Match of the link pattern of line 189 at the current position: a bracketed
non-empty run of characters other than a closing bracket, then a
parenthesized non-empty run of characters other than a closing parenthesis.
Returns the link text, the URL and the remainder of the input. -/
def matchLink : List Char → Option (List Char × List Char × List Char)
  | '[' :: rest =>
    let txt := rest.takeWhile (fun c => c ≠ ']')
    match rest.dropWhile (fun c => c ≠ ']') with
    | ']' :: '(' :: r2 =>
      let url := r2.takeWhile (fun c => c ≠ ')')
      (match r2.dropWhile (fun c => c ≠ ')') with
       | ')' :: r4 => if txt.isEmpty || url.isEmpty then none else some (txt, url, r4)
       | _ => none)
    | _ => none
  | _ => none

/-- Left-to-right substitution of the link pattern, as `re.sub` performs it:
scan for the leftmost match, replace, continue after the replaced text.  A
match consumes at least one character, so fuel equal to the input length
suffices. -/
def subLinksAux : Nat → List Char → List Char
  | _, [] => []
  | 0, l => l
  | fuel + 1, c :: cs =>
    match matchLink (c :: cs) with
    | some (txt, url, rest) =>
      String.data "<a href=\"" ++ url ++ String.data "\">" ++ txt ++ String.data "</a>" ++
        subLinksAux fuel rest
    | none => c :: subLinksAux fuel cs

/-- The `re.sub` of line 189 converting markdown links to anchors. -/
def subLinks (s : String) : String :=
  ⟨subLinksAux s.data.length s.data⟩

/-- Match of the bold pattern of line 192 at the current position: a double
star, a non-empty run of characters other than a star, a double star. -/
def matchBold : List Char → Option (List Char × List Char)
  | '*' :: '*' :: rest =>
    let txt := rest.takeWhile (fun c => c ≠ '*')
    match rest.dropWhile (fun c => c ≠ '*') with
    | '*' :: '*' :: r => if txt.isEmpty then none else some (txt, r)
    | _ => none
  | _ => none

/-- Left-to-right substitution of the bold pattern, as `re.sub` performs it. -/
def subBoldAux : Nat → List Char → List Char
  | _, [] => []
  | 0, l => l
  | fuel + 1, c :: cs =>
    match matchBold (c :: cs) with
    | some (txt, rest) =>
      String.data "<strong>" ++ txt ++ String.data "</strong>" ++ subBoldAux fuel rest
    | none => c :: subBoldAux fuel cs

/-- The `re.sub` of line 192 converting double-star emphasis to strong tags. -/
def subBold (s : String) : String :=
  ⟨subBoldAux s.data.length s.data⟩

/-- The content transformation of `create_html_email` (lines 182-195), in
source order: the three header replacements, the link substitution, the bold
substitution, and the bullet replacement. -/
def transformContent (digest_content : String) : String :=
  let h1 := pyReplace (pyReplace (pyReplace digest_content "# " "<h1>") "\n## " "</h1>\n<h2>") "\n### " "</h2>\n<h3>"
  let h2 := subLinks h1
  let h3 := subBold h2
  pyReplace h3 "\n- " "<br>• "

/-- The part of the styled HTML shell of lines 198-256 that precedes the
converted content. -/
def htmlPrefix : String :=
  "\n<!DOCTYPE html>\n<html>\n<head>\n    <meta charset=\"UTF-8\">\n    <style>\n        body \x7b\n            font-family: -apple-system, BlinkMacSystemFont, \x27Segoe UI\x27, \x27Roboto\x27, \x27Helvetica Neue\x27, sans-serif;\n            line-height: 1.6;\n            color: #333;\n            max-width: 800px;\n            margin: 0 auto;\n            padding: 20px;\n            background: linear-gradient(135deg, #667eea 0%, #764ba2 100%);\n        \x7d\n        .container \x7b\n            background: white;\n            border-radius: 16px;\n            padding: 40px;\n            box-shadow: 0 10px 40px rgba(0,0,0,0.1);\n        \x7d\n        h1 \x7b\n            color: #667eea;\n            border-bottom: 3px solid #667eea;\n            padding-bottom: 10px;\n            font-size: 28px;\n        \x7d\n        h2 \x7b\n            color: #764ba2;\n            margin-top: 30px;\n            font-size: 22px;\n        \x7d\n        h3 \x7b\n            color: #555;\n            font-size: 18px;\n        \x7d\n        a \x7b\n            color: #667eea;\n            text-decoration: none;\n        \x7d\n        a:hover \x7b\n            text-decoration: underline;\n        \x7d\n        .footer \x7b\n            margin-top: 40px;\n            padding-top: 20px;\n            border-top: 1px solid #eee;\n            color: #999;\n            font-size: 14px;\n            text-align: center;\n        \x7d\n        .emoji \x7b\n            font-size: 1.2em;\n        \x7d\n    </style>\n</head>\n<body>\n    <div class=\"container\">\n        "

/-- The part of the styled HTML shell of lines 256-265 that follows the
converted content: the fixed footer and the closing tags. -/
def htmlSuffix : String :=
  "\n        <div class=\"footer\">\n            <p>📧 This email was automatically generated and sent</p>\n            <p>🤖 Compiled by Google Gemini AI | 🔄 Updated daily</p>\n            <p>💡 Sources: Google News, arXiv, and professional websites</p>\n        </div>\n    </div>\n</body>\n</html>\n"

/-- `create_html_email` (lines 178-266): the transformed content interpolated
into the styled shell. -/
def create_html_email (digest_content : String) : String :=
  htmlPrefix ++ transformContent digest_content ++ htmlSuffix

/-- `send_email` (lines 269-293).  The mailer collaborator (the SMTP session
of lines 284-286) either succeeds or raises; the surrounding `try`/`except`
maps success to `True` and any exception to `False`. -/
def send_email (mailer : String → String → Except String Unit)
    (subject html_content : String) : Bool :=
  match mailer subject html_content with
  | Except.ok _ => true
  | Except.error _ => false

/-- The sequence of `send_email` invocations performed by `main`
(lines 296-338): `dateLong` stands for the `%B %d, %Y` timestamp interpolated
into the prompt and `dateIso` for the `%Y-%m-%d` timestamp of the subject
line.  Python's `if not digest` treats the empty string as falsy, hence the
emptiness test after a successful generation. -/
def main_emails (yesterday : Int) (dateLong dateIso : String) (sources : List Source)
    (gen : String → Except String String) : List (String × String) :=
  let articles := fetch_articles yesterday sources
  if articles.isEmpty then []
  else
    let relevant := filter_relevant_articles articles
    if relevant.isEmpty then []
    else
      match generate_digest_with_gemini dateLong gen relevant with
      | none => []
      | some digest =>
        if digest.isEmpty then []
        else [("🤖 AI & Disability Daily Digest - " ++ dateIso, create_html_email digest)]

/-- A sample feed entry whose text matches both keyword sets and which has no
parsed publish date. -/
def sampleEntry : RawEntry :=
  { title := some "AI assistive technology for disability inclusion"
    link := some "https://example.com/story"
    summary := some "A new machine learning system improves accessibility."
    pubDate := none }

/-- A sample normalized article matching both keyword sets. -/
def sampleArticle : Article :=
  { title := "AI for disability"
    link := "https://example.com/story"
    summary := "machine learning accessibility"
    source := "A"
    published := "Recent" }

/-- A sample feed entry whose text matches neither keyword set. -/
def irrelevantEntry : RawEntry :=
  { title := some "Weather report"
    link := some "https://example.com/weather"
    summary := some "Sunny day tomorrow"
    pubDate := none }

/-- Claim C1 counterexample: two sources each yield an in-window entry with
the same non-empty link, and `fetch_articles` keeps both — its output contains
two articles with that link, not exactly one. -/
theorem fetch_articles_dup_link_counterexample :
    countLink (fetch_articles 0 [{ name := "A", result := Except.ok [sampleEntry] },
                                 { name := "B", result := Except.ok [sampleEntry] }])
        "https://example.com/story" = 2 ∧
    countLink (fetch_articles 0 [{ name := "A", result := Except.ok [sampleEntry] },
                                 { name := "B", result := Except.ok [sampleEntry] }])
        "https://example.com/story" ≠ 1 := by
  decide

/-- Claim C1 (amended): `fetch_articles` performs no link-based
deduplication — for every link, the number of output articles carrying it is
the total number of in-cap, in-window raw entries carrying it, summed across
all successful sources, so every duplicate instance is kept. -/
theorem fetch_articles_no_dedup_count (y : Int) (L : String) (sources : List Source) :
    countLink (fetch_articles y sources) L =
      (sources.map (fun s =>
        match s.result with
        | Except.error _ => 0
        | Except.ok entries =>
          ((entries.take 10).filter
            (fun e => survivesWindow y e && (e.link.getD "" == L))).length)).sum := by
  induction sources with
  | nil => rfl
  | cons s ss ih =>
    simp only [fetch_articles, List.flatMap_cons, List.map_cons, List.sum_cons] at *
    rw [countLink_append, ih]
    congr 1
    cases hs : s.result with
    | error e => simp [processSource, hs, countLink]
    | ok entries => simp [processSource, hs, countLink_filterMap]

/-- Claim C4: an entry whose parsed publish date lies strictly before the
cutoff is excluded by the entry loop, and an entry with no parsed date is
always included, with the sentinel published value "Recent". -/
theorem fetch_window_policy (y : Int) (n : String) (entries : List RawEntry) (e : RawEntry)
    (he : e ∈ entries.take 10) :
    (∀ d, e.pubDate = some d → d < y → entryToArticle y n e = none) ∧
    (e.pubDate = none →
      ∃ a, a ∈ processSource y { name := n, result := Except.ok entries } ∧
        entryToArticle y n e = some a ∧ a.published = "Recent") := by
  constructor
  · intro d hd hlt
    simp [entryToArticle, hd, hlt]
  · intro hd
    refine ⟨{ title := e.title.getD "No Title", link := e.link.getD "",
              summary := strTake (e.summary.getD "") 300, source := n, published := "Recent" },
            ?_, ?_, rfl⟩
    · simp only [processSource]
      exact List.mem_filterMap.mpr ⟨e, he, by simp [entryToArticle, hd]⟩
    · simp [entryToArticle, hd]

/-- A sample feed entry carrying the parsed publish date 5. -/
def datedEntry : RawEntry :=
  { title := none, link := none, summary := none, pubDate := some 5 }

/-- Claim C4 witness: at the cutoff 10, an entry dated 5 is dropped, and an
entry with no parsed date is materialized with published "Recent". -/
theorem fetch_window_policy_witness :
    entryToArticle 10 "s" datedEntry = none ∧
    ∃ a, a ∈ processSource 10 { name := "s", result := Except.ok [datedEntry, sampleEntry] } ∧
      entryToArticle 10 "s" sampleEntry = some a ∧ a.published = "Recent" :=
  ⟨(fetch_window_policy 10 "s" [datedEntry, sampleEntry] datedEntry (by decide)).1 5 rfl (by decide),
   (fetch_window_policy 10 "s" [datedEntry, sampleEntry] sampleEntry (by decide)).2 rfl⟩

/-- Claim C6: a source whose fetch raises contributes nothing and is skipped;
removing it from the registry leaves the Collector's output unchanged, so a
failing source never aborts the run and articles from the other sources are
preserved. -/
theorem fetch_articles_skips_failing_source (y : Int) (ss₁ ss₂ : List Source) (n err : String) :
    fetch_articles y (ss₁ ++ { name := n, result := Except.error err } :: ss₂) =
      fetch_articles y (ss₁ ++ ss₂) := by
  simp [fetch_articles, processSource]

/-- Claim C3: an article is in the filter's output exactly when it is in the
input and the lowercased concatenation of its title and summary contains at
least one AI keyword and at least one disability keyword as substrings. -/
theorem filter_relevant_iff (articles : List Article) (a : Article) :
    a ∈ filter_relevant_articles articles ↔
      a ∈ articles ∧
        (∃ kw ∈ ai_keywords, strContains (articleText a) kw = true) ∧
        (∃ kw ∈ keywords, strContains (articleText a) kw = true) := by
  simp [filter_relevant_articles, List.mem_filter, has_ai, has_disability,
    List.any_eq_true, and_assoc]

/-- Claim C2 counterexample: with a non-empty article list and a synthesizer
that raises, `generate_digest_with_gemini` returns `none` — the failure value,
not a non-empty fallback string. -/
theorem generate_digest_failure_counterexample :
    generate_digest_with_gemini "October 12, 2025"
      (fun _ => Except.error "quota exceeded") [sampleArticle] = none := rfl

/-- Claim C2 (amended): when the text synthesizer raises on every prompt,
`generate_digest_with_gemini` returns `None` — the exception is caught and
mapped to the failure value, and no fallback digest is produced. -/
theorem generate_digest_error_returns_none (dateStr : String)
    (gen : String → Except String String) (articles : List Article)
    (h : ∀ p, ∃ e, gen p = Except.error e) :
    generate_digest_with_gemini dateStr gen articles = none := by
  unfold generate_digest_with_gemini
  split
  · rfl
  · obtain ⟨e, he⟩ := h (buildPrompt dateStr articles)
    simp [he]

/-- Claim C2 witness: a concrete always-raising synthesizer on a one-article
list yields `none`. -/
theorem generate_digest_error_returns_none_witness :
    generate_digest_with_gemini "July 01, 2025"
      (fun _ => Except.error "no network") [sampleArticle] = none :=
  generate_digest_error_returns_none "July 01, 2025"
    (fun _ => Except.error "no network") [sampleArticle]
    (fun _ => ⟨"no network", rfl⟩)

/-- Claim C8: `generate_digest_with_gemini` returns the same failure value
`none` both on an empty input list and when the synthesizer call raises, so
the caller cannot distinguish the two at the interface. -/
theorem generate_digest_none_indistinguishable (dateStr : String)
    (gen : String → Except String String) (articles : List Article) :
    generate_digest_with_gemini dateStr gen [] = none ∧
    (∀ err, gen (buildPrompt dateStr articles) = Except.error err →
      generate_digest_with_gemini dateStr gen articles = none) := by
  refine ⟨rfl, fun err herr => ?_⟩
  unfold generate_digest_with_gemini
  split
  · rfl
  · simp [herr]

/-- Claim C8 witness: a concrete raising synthesizer produces `none` on the
empty list and on a one-article list alike. -/
theorem generate_digest_none_indistinguishable_witness :
    generate_digest_with_gemini "July 01, 2025" (fun _ => Except.error "offline") [] = none ∧
    generate_digest_with_gemini "July 01, 2025" (fun _ => Except.error "offline") [sampleArticle] = none :=
  ⟨(generate_digest_none_indistinguishable "July 01, 2025"
      (fun _ => Except.error "offline") [sampleArticle]).1,
   (generate_digest_none_indistinguishable "July 01, 2025"
      (fun _ => Except.error "offline") [sampleArticle]).2 "offline" rfl⟩

set_option maxRecDepth 100000 in
/-- Claim C7: the renderer never produces a level-2 or level-3 heading — the
first replacement consumes the trailing "# " of every "## " and "### "
marker, so on a digest with all three header levels the output contains no
h2 or h3 tag and instead contains the mangled fragments. -/
theorem create_html_email_header_bug :
    strContains (create_html_email "# Title\n## Highlights\n### Sub\ntext") "<h2>" = false ∧
    strContains (create_html_email "# Title\n## Highlights\n### Sub\ntext") "<h3>" = false ∧
    strContains (create_html_email "# Title\n## Highlights\n### Sub\ntext") "#<h1>Highlights" = true ∧
    strContains (create_html_email "# Title\n## Highlights\n### Sub\ntext") "##<h1>Sub" = true := by
  decide

/-- Claim C5 counterexample: a run whose Collector output is non-empty but
whose Relevance Filter output is empty performs no `send_email` invocation at
all — there is no "no matches today" status email. -/
theorem main_no_relevant_counterexample :
    fetch_articles 0 [{ name := "A", result := Except.ok [irrelevantEntry] }] ≠ [] ∧
    filter_relevant_articles
      (fetch_articles 0 [{ name := "A", result := Except.ok [irrelevantEntry] }]) = [] ∧
    main_emails 0 "July 01, 2025" "2025-07-01"
      [{ name := "A", result := Except.ok [irrelevantEntry] }]
      (fun _ => Except.ok "digest") = [] := by
  decide

/-- Claim C5 (amended): when the Relevance Filter returns zero relevant
articles, `main` returns without invoking `send_email` — it prints a warning
and stops, sending no email. -/
theorem main_no_relevant_no_email (y : Int) (dateLong dateIso : String)
    (sources : List Source) (gen : String → Except String String)
    (_hart : fetch_articles y sources ≠ [])
    (hrel : filter_relevant_articles (fetch_articles y sources) = []) :
    main_emails y dateLong dateIso sources gen = [] := by
  unfold main_emails
  by_cases hf : (fetch_articles y sources).isEmpty
  · simp [hf]
  · simp [hf, hrel]

/-- Claim C5 witness: a concrete run with one irrelevant article sends
nothing. -/
theorem main_no_relevant_no_email_witness :
    main_emails 0 "July 01, 2025" "2025-07-01"
      [{ name := "B", result := Except.ok [irrelevantEntry] }]
      (fun _ => Except.ok "d") = [] :=
  main_no_relevant_no_email 0 "July 01, 2025" "2025-07-01"
    [{ name := "B", result := Except.ok [irrelevantEntry] }]
    (fun _ => Except.ok "d") (by decide) (by decide)

/-- Claim C9: `send_email` is total over thrown mailer errors — it returns a
boolean, `true` exactly when the mail transport succeeds and `false` on any
mailer exception, for every subject and body. -/
theorem send_email_total_iff (mailer : String → String → Except String Unit)
    (subject html_content : String) :
    send_email mailer subject html_content = true ↔
      mailer subject html_content = Except.ok () := by
  unfold send_email
  cases h : mailer subject html_content with
  | ok u => cases u; simp
  | error e => simp

/-- Claim C10: in every run, `main` invokes the mailer at most once, and only
when the Collector returned articles, the Relevance Filter returned relevant
articles, and the Digest Synthesizer returned a non-empty digest. -/
theorem main_at_most_one_email (y : Int) (dateLong dateIso : String)
    (sources : List Source) (gen : String → Except String String) :
    (main_emails y dateLong dateIso sources gen).length ≤ 1 ∧
    (main_emails y dateLong dateIso sources gen ≠ [] →
      fetch_articles y sources ≠ [] ∧
      filter_relevant_articles (fetch_articles y sources) ≠ [] ∧
      ∃ d, generate_digest_with_gemini dateLong gen
          (filter_relevant_articles (fetch_articles y sources)) = some d ∧ d ≠ "") := by
  unfold main_emails
  by_cases h1 : (fetch_articles y sources).isEmpty
  · simp [h1]
  · by_cases h2 : (filter_relevant_articles (fetch_articles y sources)).isEmpty
    · simp [h1, h2]
    · cases h3 : generate_digest_with_gemini dateLong gen
          (filter_relevant_articles (fetch_articles y sources)) with
      | none => simp [h1, h2, h3]
      | some d =>
        by_cases h4 : d.isEmpty
        · simp [h1, h2, h3, h4]
        · refine ⟨by simp [h1, h2, h3, h4], fun _ => ⟨?_, ?_, d, rfl, ?_⟩⟩
          · simpa using h1
          · simpa using h2
          · intro hd
            exact h4 (hd ▸ rfl)

/-- Claim C10 witness: a concrete successful run sends exactly one email, and
all three stages are non-empty there. -/
theorem main_at_most_one_email_witness :
    (main_emails 0 "July 01, 2025" "2025-07-01"
      [{ name := "A", result := Except.ok [sampleEntry] }]
      (fun _ => Except.ok "news")).length ≤ 1 ∧
    (fetch_articles 0 [{ name := "A", result := Except.ok [sampleEntry] }] ≠ [] ∧
     filter_relevant_articles
       (fetch_articles 0 [{ name := "A", result := Except.ok [sampleEntry] }]) ≠ [] ∧
     ∃ d, generate_digest_with_gemini "July 01, 2025" (fun _ => Except.ok "news")
         (filter_relevant_articles
           (fetch_articles 0 [{ name := "A", result := Except.ok [sampleEntry] }])) = some d ∧
       d ≠ "") :=
  ⟨(main_at_most_one_email 0 "July 01, 2025" "2025-07-01"
      [{ name := "A", result := Except.ok [sampleEntry] }] (fun _ => Except.ok "news")).1,
   (main_at_most_one_email 0 "July 01, 2025" "2025-07-01"
      [{ name := "A", result := Except.ok [sampleEntry] }] (fun _ => Except.ok "news")).2
      (by decide)⟩
